import Mathlib

/-!
Verification of the detection post-processing, batching and rendering logic of
`detect/detector.py` (SSD detector wrapper).

The external deep-learning runtime (mxnet) and the image library (cv2) are
treated as black boxes, modelled by explicit function parameters; all glue
logic of the repository itself is translated directly from the source.

Rationals stand in for the floating-point tensor entries: every comparison
performed by the code (`>= 0`, `score > thresh`) is exact on the values the
claims mention, so no rounding behaviour is lost. Decoded images are opaque
ℕ ids; filenames and error messages are `List Char`.
-/

/-- One row of the detection output tensor:
`[class_id, score, xmin, ymin, xmax, ymax]` (detector.py docstring, line 110). -/
structure DetRow where
  class_id : ℚ
  score : ℚ
  xmin : ℚ
  ymin : ℚ
  xmax : ℚ
  ymax : ℚ
deriving DecidableEq, Repr

/-- `np.where(det[:, 0] >= 0)[0]` (detector.py line 89): the increasing list of
row indices whose first column satisfies the predicate. -/
def npWhere (p : DetRow → Bool) (det : List DetRow) : List ℕ :=
  (List.range det.length).filter (fun i => ((det.get? i).map p).getD false)

/-- Numpy fancy indexing `det[idx]` for an index list: gather the rows at the
given indices (each a fresh copy) in index order. -/
def npTake (det : List DetRow) (idx : List ℕ) : List DetRow :=
  idx.filterMap det.get?

/-- The per-image Result Filter `det[np.where(det[:, 0] >= 0)[0]]`
(detector.py line 89). -/
def resultFilter (det : List DetRow) : List DetRow :=
  npTake det (npWhere (fun r => decide (0 ≤ r.class_id)) det)

/-- The result-accumulation loop of `Detector.detect` (detector.py lines 86-91):
state is the pair (detections tensor, result list); each iteration reads slot
`i` of the tensor and appends the filtered rows; the tensor is only read. -/
def detectLoop (detections : List (List DetRow)) :
    List (List DetRow) × List (List DetRow) :=
  detections.foldl (fun acc det => (acc.1, acc.2 ++ [resultFilter det])) (detections, [])

/-- `Detector.detect` downstream of the runtime's prediction call.
Modelled from the spec: the external runtime's `mod.predict` emits one
fixed-capacity tensor slot per submitted image, in submission order
(`infer` gives the raw slot for each image). The repository code then runs
`detectLoop` over those slots. -/
def detect (infer : ℕ → List DetRow) (imgs : List ℕ) : List (List DetRow) :=
  (detectLoop (imgs.map infer)).2

/-- The concrete spec example input: rows
`[[1,0.9,0.1,0.1,0.5,0.5],[-1,0,0,0,0,0],[2,0.3,0.2,0.2,0.6,0.6]]`. -/
def exampleTensor : List DetRow :=
  [⟨1, 9/10, 1/10, 1/10, 1/2, 1/2⟩,
   ⟨-1, 0, 0, 0, 0, 0⟩,
   ⟨2, 3/10, 2/10, 2/10, 6/10, 6/10⟩]

/-- The rows the spec example says the filter returns. -/
def exampleFiltered : List DetRow :=
  [⟨1, 9/10, 1/10, 1/10, 1/2, 1/2⟩,
   ⟨2, 3/10, 2/10, 2/10, 6/10, 6/10⟩]

/-- The fields `Detector.__init__` stores on the instance together with the
loaded checkpoint blobs (detector.py lines 29-42); the external symbol and
parameter blobs are opaque ℕ tags. -/
structure Detector where
  sym : ℕ
  args : ℕ
  auxs : ℕ
  data_shape : ℕ
  mean_pixels : ℚ × ℚ × ℚ
  batch_size : ℕ
deriving DecidableEq, Repr

/-- The constructor arguments `im_detect` passes to `DetIter`
(detector.py lines 113-114): `DetIter(test_db, 1, self.data_shape,
self.mean_pixels, is_train=False)` — the batch-size argument is the
literal `1`. -/
structure DetIterArgs where
  batchSize : ℕ
  dataShape : ℕ
  meanPixels : ℚ × ℚ × ℚ
  isTrain : Bool
deriving DecidableEq, Repr

/-- The `DetIter` construction performed by `Detector.im_detect`
(detector.py lines 112-114). -/
def im_detect_iterArgs (d : Detector) : DetIterArgs :=
  { batchSize := 1, dataShape := d.data_shape,
    meanPixels := d.mean_pixels, isTrain := false }

/-- Modelled from the spec: the external `mx.model.load_checkpoint` call
returns the symbol and parameter blobs stored under a `(model_prefix, epoch)`
key, or fails (raises) when no checkpoint exists for that key. The blobs are
opaque ℕ tags; the store is an explicit function parameter of `detectorInit`. -/
structure Checkpoint where
  symTag : ℕ
  argsTag : ℕ
  auxsTag : ℕ
deriving DecidableEq, Repr

/-- Error surfaced when the checkpoint files are missing. -/
def missingCheckpointMsg : List Char := "checkpoint not found".toList

/-- `Detector.__init__` (detector.py lines 29-42): load the checkpoint first
(a missing checkpoint raises, aborting construction), fall back to the
checkpoint's embedded symbol when none is supplied, then store the bound
configuration on the instance. -/
def detectorInit (loadCheckpoint : List Char → ℤ → Option Checkpoint)
    (symbol : Option ℕ) (pfx : List Char) (epoch : ℤ)
    (data_shape : ℕ) (mean_pixels : ℚ × ℚ × ℚ) (batch_size : ℕ) :
    Except (List Char) Detector :=
  match loadCheckpoint pfx epoch with
  | none => Except.error missingCheckpointMsg
  | some cp =>
      Except.ok { sym := symbol.getD cp.symTag, args := cp.argsTag,
                  auxs := cp.auxsTag, data_shape := data_shape,
                  mean_pixels := mean_pixels, batch_size := batch_size }

/-- Python `int()` truncation toward zero on a rational. -/
def pyInt (q : ℚ) : ℤ := Int.tdiv q.num (q.den : ℤ)

/-- Python sequence indexing `l[i]`: nonnegative indices count from the
front, negative indices from the back; `none` marks an IndexError. -/
def pyIndex {α : Type} (l : List α) (i : ℤ) : Option α :=
  if 0 ≤ i then l.get? i.toNat
  else if (-i).toNat ≤ l.length then l.get? (l.length - (-i).toNat)
  else none

/-- One cv2 drawing call recorded by the Render model: the bounding rectangle
of a detection record (with its denormalized, truncated integer box), or its
label (filled background plus class-name text). -/
inductive DrawEv
  | rect (d : DetRow) (box : ℤ × ℤ × ℤ × ℤ)
  | label (d : DetRow) (name : List Char)
deriving DecidableEq, Repr

/-- The error with which an out-of-range `classes[cls_id]` lookup raises. -/
def indexErrorMsg : List Char := "IndexError: list index out of range".toList

/-- `Detector.visualize_detection` (detector.py lines 135-172): walk the
detection rows in order; for each row whose score strictly exceeds the
threshold, draw its rectangle (`cv2.rectangle`), then look up
`classes[cls_id]` for the label text — an out-of-range lookup raises,
ending the call with the events already drawn — then draw the label.
Rows at or below the threshold draw nothing. The box is denormalized by the
image x/y scales and truncated with Python `int`; text-size computation and
the decimal formatting of the score in the label are abstracted. Returns the
drawing events together with the error, if any, that ended the call. -/
def visualize_detection :
    List DetRow → List (List Char) → ℚ → ℚ → ℚ → List DrawEv × Option (List Char)
  | [], _, _, _, _ => ([], none)
  | d :: rest, classes, xscale, yscale, thresh =>
    if thresh < d.score then
      match pyIndex classes (pyInt d.class_id) with
      | none =>
        ([DrawEv.rect d (pyInt (d.xmin * xscale), pyInt (d.ymin * yscale),
            pyInt (d.xmax * xscale), pyInt (d.ymax * yscale))],
         some indexErrorMsg)
      | some nm =>
        (DrawEv.rect d (pyInt (d.xmin * xscale), pyInt (d.ymin * yscale),
            pyInt (d.xmax * xscale), pyInt (d.ymax * yscale)) ::
          DrawEv.label d nm ::
          (visualize_detection rest classes xscale yscale thresh).1,
         (visualize_detection rest classes xscale yscale thresh).2)
    else visualize_detection rest classes xscale yscale thresh

/-- Python `str.endswith` on filenames. -/
def pyEndsWith (s suffix : List Char) : Bool := List.isSuffixOf suffix s

def pngExt : List Char := ".png".toList

def jpgExt : List Char := ".jpg".toList

def mp4Ext : List Char := ".mp4".toList

def aviExt : List Char := ".avi".toList

/-- The external cv2 / iterator environment `detect_and_visualize` runs
against: `cv2.imread` still-image reads (`none` = no image decoded, as for
any video file), the first frame delivered by `cv2.VideoCapture(...).read()`
(`none` = no frame), the image the `DetIter` pipeline loads for a path, and
the (yscale, xscale) shape of a decoded image. Images are opaque ℕ ids. -/
structure CvEnv where
  imread : List Char → Option ℕ
  capReadFirst : List Char → Option ℕ
  iterLoad : List Char → ℕ
  shape : ℕ → ℚ × ℚ

/-- One observable step of `detect_and_visualize`: inference executed on an
image, or a `visualize_detection` call rendering onto an image. -/
inductive DavEvent
  | detectOn (img : ℕ)
  | renderOn (img : ℕ) (evs : List DrawEv)
deriving DecidableEq, Repr

/-- The unsupported-extension error raised at detector.py line 212. -/
def unsupportedExtMsg : List Char :=
  "unknown file extention, only .png/.jpg/.mp4/.avi files are supported.".toList

/-- The error raised by the in-place channel swap `img[:, :, (0, 1, 2)] = ...`
when `cv2.imread` returned no image. -/
def noneTypeMsg : List Char :=
  "TypeError: NoneType object does not support item assignment".toList

/-- Modelled from the spec: the external runtime rejects a prediction over a
capture read that produced no frame. -/
def capReadFailMsg : List Char := "no frame decoded from capture".toList

/-- The per-batch render loop shared by both branches of
`detect_and_visualize` (detector.py lines 197-201 and 206-210): for each
Detection Batch, re-read the input path with `cv2.imread`, swap the channels
in place (this raises when the read produced no image; the swap keeps the
image id), and call `visualize_detection` on the re-read image. Returns the
render events and the error, if any, that aborted the loop. -/
def renderLoop (env : CvEnv) (imgname : List Char) (classes : List (List Char))
    (thresh : ℚ) : List (List DetRow) → List DavEvent × Option (List Char)
  | [] => ([], none)
  | det :: rest =>
    match env.imread imgname with
    | none => ([], some noneTypeMsg)
    | some img =>
      match (visualize_detection det classes (env.shape img).2
          (env.shape img).1 thresh).2 with
      | some e => ([], some e)
      | none =>
        (DavEvent.renderOn img (visualize_detection det classes
            (env.shape img).2 (env.shape img).1 thresh).1 ::
          (renderLoop env imgname classes thresh rest).1,
         (renderLoop env imgname classes thresh rest).2)

/-- `Detector.detect_and_visualize` (detector.py lines 174-212): dispatch on
the filename suffix. Still-image suffixes run `im_detect` on the path (the
iterator pipeline loads the image, inference fills one slot, the Result
Filter trims it) and then the render loop. Video suffixes read the first
frame from a capture stream, run single-frame detection on that frame, and
then the same render loop — whose body re-reads `imgname` with the
still-image reader. Any other suffix raises the unsupported-format error
before any detection or rendering. Returns the event trace and the error,
if any. -/
def detect_and_visualize (env : CvEnv) (infer : ℕ → List DetRow)
    (imgname : List Char) (classes : List (List Char)) (thresh : ℚ) :
    List DavEvent × Option (List Char) :=
  if pyEndsWith imgname pngExt || pyEndsWith imgname jpgExt then
    (DavEvent.detectOn (env.iterLoad imgname) ::
       (renderLoop env imgname classes thresh
         (detect infer [env.iterLoad imgname])).1,
     (renderLoop env imgname classes thresh
       (detect infer [env.iterLoad imgname])).2)
  else if pyEndsWith imgname mp4Ext || pyEndsWith imgname aviExt then
    match env.capReadFirst imgname with
    | none => ([], some capReadFailMsg)
    | some frame =>
      (DavEvent.detectOn frame ::
         (renderLoop env imgname classes thresh (detect infer [frame])).1,
       (renderLoop env imgname classes thresh (detect infer [frame])).2)
  else ([], some unsupportedExtMsg)

/-- A detection record with score 0.59 and class id 0. -/
def vRow59 : DetRow := ⟨0, 59/100, 1/10, 1/10, 1/2, 1/2⟩

/-- A detection record with score 0.61 and class id 0. -/
def vRow61 : DetRow := ⟨0, 61/100, 1/10, 1/10, 1/2, 1/2⟩

/-- A one-entry class-name table covering class id 0. -/
def vClasses : List (List Char) := ["person".toList]

/-- An environment in which no read ever succeeds. -/
def plainEnv : CvEnv :=
  { imread := fun _ => none, capReadFirst := fun _ => none,
    iterLoad := fun _ => 0, shape := fun _ => (1, 1) }

/-- An environment for a video path: the capture stream decodes frame `7`,
while `cv2.imread` — as for every video file — decodes nothing. -/
def videoEnv : CvEnv :=
  { imread := fun _ => none, capReadFirst := fun _ => some 7,
    iterLoad := fun _ => 0, shape := fun _ => (1, 1) }

/-- An inference function finding one valid detection on every image. -/
def videoInfer : ℕ → List DetRow := fun _ => [⟨0, 1, 0, 0, 1, 1⟩]

/-- A filename with an unsupported extension. -/
def txtName : List Char := "notes.txt".toList

/-- A video filename. -/
def videoName : List Char := "video.mp4".toList

/-- A checkpoint prefix. -/
def ssdName : List Char := "ssd".toList

section FilterLemmas

lemma npWhere_cons (p : DetRow → Bool) (a : DetRow) (l : List DetRow) :
    npWhere p (a :: l) =
      (if p a then [0] else []) ++ (npWhere p l).map (· + 1) := by
  unfold npWhere
  have hlen : (a :: l).length = l.length + 1 := rfl
  rw [hlen, List.range_succ_eq_map, List.filter_cons, List.filter_map]
  have h1 : ((fun i => (((a :: l).get? i).map p).getD false) ∘ Nat.succ)
      = (fun i => ((l.get? i).map p).getD false) := funext fun i => rfl
  rw [h1]
  have h2 : (((a :: l).get? 0).map p).getD false = p a := rfl
  rw [h2]
  have hsucc : Nat.succ = (fun i : ℕ => i + 1) := funext fun i => rfl
  rw [hsucc]
  by_cases hpa : p a
  · simp [hpa]
  · simp [hpa]

lemma npTake_map_succ (a : DetRow) (l : List DetRow) (idx : List ℕ) :
    npTake (a :: l) (idx.map (· + 1)) = npTake l idx := by
  unfold npTake
  rw [List.filterMap_map]
  have h1 : ((a :: l).get? ∘ fun i : ℕ => i + 1) = l.get? := funext fun i => rfl
  rw [h1]

/-- The gather-over-indices form of the Result Filter coincides with
`List.filter` on the class-id column: the filter keeps exactly the rows whose
first column is nonnegative, in their original order. -/
lemma resultFilter_eq_filter (det : List DetRow) :
    resultFilter det = det.filter (fun r => decide (0 ≤ r.class_id)) := by
  induction det with
  | nil => rfl
  | cons a l ih =>
    unfold resultFilter at *
    rw [npWhere_cons, List.filter_cons]
    by_cases h : (0 ≤ a.class_id)
    · have hb : decide (0 ≤ a.class_id) = true := decide_eq_true h
      rw [hb]
      rw [if_pos rfl, if_pos rfl]
      unfold npTake
      rw [List.filterMap_append]
      have h0 : List.filterMap (a :: l).get? [0] = [a] := rfl
      rw [h0]
      have h1 : List.filterMap (a :: l).get?
          ((npWhere (fun r => decide (0 ≤ r.class_id)) l).map (· + 1)) =
          npTake l (npWhere (fun r => decide (0 ≤ r.class_id)) l) :=
        npTake_map_succ a l _
      rw [h1, ih]
      rfl
    · have hb : decide (0 ≤ a.class_id) = false := decide_eq_false h
      rw [hb]
      rw [if_neg (fun hc => Bool.false_ne_true hc), if_neg (fun hc => Bool.false_ne_true hc)]
      rw [List.nil_append, npTake_map_succ, ih]

lemma detectLoop_eq (detections : List (List DetRow)) :
    detectLoop detections = (detections, detections.map resultFilter) := by
  have key : ∀ (l : List (List DetRow)) (s : List (List DetRow))
      (acc : List (List DetRow)),
      l.foldl (fun acc det => (acc.1, acc.2 ++ [resultFilter det])) (s, acc) =
        (s, acc ++ l.map resultFilter) := by
    intro l
    induction l with
    | nil => intro s acc; simp
    | cons a t ih =>
      intro s acc
      simp only [List.foldl_cons, List.map_cons]
      rw [ih]
      simp
  unfold detectLoop
  rw [key]
  simp

end FilterLemmas

/-- C1: the Result Filter returns exactly the rows whose first column
(class_id) is ≥ 0, preserving the original row order (it equals `List.filter`
on the class-id column, hence is a sublist of the input), the number of
returned rows is at most the tensor's row capacity, and on the concrete
example tensor it returns the two valid rows with the `-1` row dropped. -/
theorem resultFilter_correct (det : List DetRow) :
    resultFilter det = det.filter (fun r => decide (0 ≤ r.class_id)) ∧
    (resultFilter det).Sublist det ∧
    (∀ r ∈ resultFilter det, 0 ≤ r.class_id) ∧
    (resultFilter det).length ≤ det.length ∧
    resultFilter exampleTensor = exampleFiltered := by
  refine ⟨resultFilter_eq_filter det, ?_, ?_, ?_, ?_⟩
  · rw [resultFilter_eq_filter]; exact List.filter_sublist det
  · intro r hr
    rw [resultFilter_eq_filter] at hr
    have := List.of_mem_filter hr
    exact of_decide_eq_true this
  · rw [resultFilter_eq_filter]; exact List.length_filter_le _ det
  · rw [resultFilter_eq_filter]
    unfold exampleTensor exampleFiltered
    norm_num [List.filter_cons]

/-- C3: the Result Filter is idempotent. -/
theorem resultFilter_idempotent (det : List DetRow) :
    resultFilter (resultFilter det) = resultFilter det := by
  rw [resultFilter_eq_filter, resultFilter_eq_filter det, List.filter_filter]
  apply List.filter_congr
  intro r _
  by_cases h : (0 ≤ r.class_id) <;> simp [h]

/-- C8: the filtering loop of `detect` never mutates the detections tensor —
the tensor component of the loop state is returned unchanged — and the result
component is a fresh list holding, per slot, the filtered sub-sequence of that
slot's rows. -/
theorem detectLoop_no_mutation (detections : List (List DetRow)) :
    (detectLoop detections).1 = detections ∧
    (detectLoop detections).2 = detections.map resultFilter := by
  rw [detectLoop_eq]
  exact ⟨rfl, rfl⟩

/-- C2: a batch of `N` images submitted to `detect` yields exactly `N`
Detection Batches, one per input image, in submission order: slot `i` of the
result is the filtered detections of input image `i`. -/
theorem detect_roundtrip (infer : ℕ → List DetRow) (imgs : List ℕ) :
    (detect infer imgs).length = imgs.length ∧
    ∀ i : ℕ, (detect infer imgs)[i]? =
      imgs[i]?.map (fun im => resultFilter (infer im)) := by
  unfold detect
  rw [detectLoop_eq]
  constructor
  · simp
  · intro i
    rw [List.map_map, List.getElem?_map]
    rfl

/-- C9: `im_detect` always constructs its batch iterator with batch size 1;
the `batch_size` the detector was constructed with is never consulted —
changing it changes nothing about the constructed iterator. -/
theorem im_detect_batch_one (d : Detector) :
    (im_detect_iterArgs d).batchSize = 1 ∧
    ∀ b : ℕ, im_detect_iterArgs { d with batch_size := b } = im_detect_iterArgs d := by
  exact ⟨rfl, fun b => rfl⟩

/-- C7: constructing a `Detector` with a model prefix for which no checkpoint
exists fails during construction with the load error, and no instance is ever
produced — so no detect call can be made on such an instance. -/
theorem detectorInit_missing_checkpoint
    (loadCheckpoint : List Char → ℤ → Option Checkpoint)
    (symbol : Option ℕ) (pfx : List Char) (epoch : ℤ)
    (data_shape : ℕ) (mean_pixels : ℚ × ℚ × ℚ) (batch_size : ℕ)
    (h : loadCheckpoint pfx epoch = none) :
    detectorInit loadCheckpoint symbol pfx epoch data_shape mean_pixels batch_size =
      Except.error missingCheckpointMsg ∧
    ∀ d : Detector,
      detectorInit loadCheckpoint symbol pfx epoch data_shape mean_pixels batch_size ≠
        Except.ok d := by
  unfold detectorInit
  rw [h]
  exact ⟨rfl, fun d hd => Except.noConfusion hd⟩

/-- Concrete instantiation of `detectorInit_missing_checkpoint`: an empty
checkpoint store, prefix `"ssd"`, epoch 0. -/
theorem detectorInit_missing_checkpoint_witness :
    detectorInit (fun _ _ => none) none ssdName 0 512 (123, 117, 104) 1 =
      Except.error missingCheckpointMsg :=
  (detectorInit_missing_checkpoint (fun _ _ => none) none ssdName 0 512
    (123, 117, 104) 1 rfl).1


lemma pyIndex_nil {α : Type} (i : ℤ) : pyIndex ([] : List α) i = none := by
  unfold pyIndex
  split
  · exact List.get?_nil
  · split
    · exact List.get?_nil
    · rfl

/-- C5: `visualize_detection` draws a Detection Record — emits its rectangle —
if and only if its score strictly exceeds the threshold, provided the
class-name lookups of the records above the threshold are in range (so the
walk completes without an IndexError). -/
theorem visualize_threshold (dets : List DetRow) (classes : List (List Char))
    (xscale yscale thresh : ℚ)
    (hok : ∀ d ∈ dets, thresh < d.score → pyIndex classes (pyInt d.class_id) ≠ none) :
    (visualize_detection dets classes xscale yscale thresh).2 = none ∧
    ∀ d : DetRow,
      (∃ b, DrawEv.rect d b ∈ (visualize_detection dets classes xscale yscale thresh).1) ↔
        (d ∈ dets ∧ thresh < d.score) := by
  induction dets with
  | nil =>
    refine ⟨rfl, fun d => ⟨?_, ?_⟩⟩
    · rintro ⟨b, hb⟩
      exact absurd hb (List.not_mem_nil _)
    · rintro ⟨hd, -⟩
      exact absurd hd (List.not_mem_nil _)
  | cons a rest ih =>
    have hokr : ∀ d ∈ rest, thresh < d.score → pyIndex classes (pyInt d.class_id) ≠ none :=
      fun d hd => hok d (List.mem_cons_of_mem a hd)
    obtain ⟨hsnd, hiff⟩ := ih hokr
    by_cases ha : thresh < a.score
    · obtain ⟨nm, hnm⟩ :=
        Option.ne_none_iff_exists'.mp (hok a (List.mem_cons_self a rest) ha)
      have hstep : visualize_detection (a :: rest) classes xscale yscale thresh =
          (DrawEv.rect a (pyInt (a.xmin * xscale), pyInt (a.ymin * yscale),
              pyInt (a.xmax * xscale), pyInt (a.ymax * yscale)) ::
            DrawEv.label a nm ::
            (visualize_detection rest classes xscale yscale thresh).1,
           (visualize_detection rest classes xscale yscale thresh).2) := by
        simp only [visualize_detection]
        rw [if_pos ha, hnm]
      rw [hstep]
      refine ⟨hsnd, fun d => ⟨?_, ?_⟩⟩
      · rintro ⟨b, hb⟩
        rcases List.mem_cons.mp hb with heq | hb'
        · obtain ⟨h1, -⟩ := DrawEv.rect.inj heq
          subst h1
          exact ⟨List.mem_cons_self _ _, ha⟩
        · rcases List.mem_cons.mp hb' with heq2 | hb''
          · exact DrawEv.noConfusion heq2
          · obtain ⟨hmem, hsc⟩ := (hiff d).mp ⟨b, hb''⟩
            exact ⟨List.mem_cons_of_mem a hmem, hsc⟩
      · rintro ⟨hd, hs⟩
        rcases List.mem_cons.mp hd with rfl | hd'
        · exact ⟨_, List.mem_cons_self _ _⟩
        · obtain ⟨b, hb⟩ := (hiff d).mpr ⟨hd', hs⟩
          exact ⟨b, List.mem_cons_of_mem _ (List.mem_cons_of_mem _ hb)⟩
    · have hstep : visualize_detection (a :: rest) classes xscale yscale thresh =
          visualize_detection rest classes xscale yscale thresh := by
        simp only [visualize_detection]
        rw [if_neg ha]
      rw [hstep]
      refine ⟨hsnd, fun d => ?_⟩
      rw [hiff d]
      constructor
      · rintro ⟨hd, hs⟩
        exact ⟨List.mem_cons_of_mem a hd, hs⟩
      · rintro ⟨hd, hs⟩
        rcases List.mem_cons.mp hd with rfl | hd'
        · exact absurd hs ha
        · exact ⟨hd', hs⟩

/-- Concrete instantiation of `visualize_threshold`: threshold 0.6, one record
scoring 0.59 and one scoring 0.61 — the call completes, the 0.61 record is
drawn, the 0.59 record is not. -/
theorem visualize_threshold_witness :
    (visualize_detection [vRow59, vRow61] vClasses 100 100 (6/10)).2 = none ∧
    (∃ b, DrawEv.rect vRow61 b ∈
      (visualize_detection [vRow59, vRow61] vClasses 100 100 (6/10)).1) ∧
    ¬ ∃ b, DrawEv.rect vRow59 b ∈
      (visualize_detection [vRow59, vRow61] vClasses 100 100 (6/10)).1 := by
  have hcls : pyIndex vClasses (pyInt (0 : ℚ)) ≠ none := by decide
  have hok : ∀ d ∈ [vRow59, vRow61], (6/10 : ℚ) < d.score →
      pyIndex vClasses (pyInt d.class_id) ≠ none := by
    intro d hd _
    rcases List.mem_cons.mp hd with rfl | hd'
    · exact hcls
    · rcases List.mem_cons.mp hd' with rfl | h0
      · exact hcls
      · exact absurd h0 (List.not_mem_nil d)
  have H := visualize_threshold [vRow59, vRow61] vClasses 100 100 (6/10) hok
  refine ⟨H.1, ?_, ?_⟩
  · refine (H.2 vRow61).mpr ⟨?_, ?_⟩
    · simp
    · norm_num [vRow61]
  · intro hex
    have h2 := ((H.2 vRow59).mp hex).2
    norm_num [vRow59] at h2

/-- C10: calling `visualize_detection` with the default empty classes sequence
while some record's score strictly exceeds the threshold makes the class-name
lookup fail out of bounds: the call ends with an IndexError, and no record's
label is ever drawn — rendering is never completed for any record. -/
theorem visualize_empty_classes_fails (dets : List DetRow)
    (xscale yscale thresh : ℚ) (h : ∃ d ∈ dets, thresh < d.score) :
    (visualize_detection dets [] xscale yscale thresh).2 = some indexErrorMsg ∧
    ∀ (d : DetRow) (nm : List Char),
      DrawEv.label d nm ∉ (visualize_detection dets [] xscale yscale thresh).1 := by
  induction dets with
  | nil =>
    obtain ⟨d, hd, -⟩ := h
    exact absurd hd (List.not_mem_nil d)
  | cons a rest ih =>
    by_cases ha : thresh < a.score
    · have hstep : visualize_detection (a :: rest) [] xscale yscale thresh =
          ([DrawEv.rect a (pyInt (a.xmin * xscale), pyInt (a.ymin * yscale),
              pyInt (a.xmax * xscale), pyInt (a.ymax * yscale))],
           some indexErrorMsg) := by
        simp only [visualize_detection]
        rw [if_pos ha, pyIndex_nil]
      rw [hstep]
      refine ⟨rfl, fun d nm hmem => ?_⟩
      rcases List.mem_cons.mp hmem with heq | h0
      · exact DrawEv.noConfusion heq
      · exact absurd h0 (List.not_mem_nil _)
    · have h' : ∃ d ∈ rest, thresh < d.score := by
        obtain ⟨d, hd, hs⟩ := h
        rcases List.mem_cons.mp hd with rfl | hd'
        · exact absurd hs ha
        · exact ⟨d, hd', hs⟩
      have hstep : visualize_detection (a :: rest) [] xscale yscale thresh =
          visualize_detection rest [] xscale yscale thresh := by
        simp only [visualize_detection]
        rw [if_neg ha]
      rw [hstep]
      exact ih h'

/-- Concrete instantiation of `visualize_empty_classes_fails`: one record with
score 1 against threshold 0, empty classes. -/
theorem visualize_empty_classes_fails_witness :
    (visualize_detection [⟨1, 1, 0, 0, 1, 1⟩] [] 1 1 0).2 = some indexErrorMsg :=
  (visualize_empty_classes_fails [⟨1, 1, 0, 0, 1, 1⟩] 1 1 0
    ⟨⟨1, 1, 0, 0, 1, 1⟩, List.mem_cons_self _ _, by decide⟩).1

/-- C4: `detect_and_visualize` on a filename not ending in .png/.jpg/.mp4/.avi
raises the unsupported-format error and performs no detection and no
rendering: the event trace is empty. -/
theorem dav_unsupported_ext (env : CvEnv) (infer : ℕ → List DetRow)
    (imgname : List Char) (classes : List (List Char)) (thresh : ℚ)
    (h1 : pyEndsWith imgname pngExt = false)
    (h2 : pyEndsWith imgname jpgExt = false)
    (h3 : pyEndsWith imgname mp4Ext = false)
    (h4 : pyEndsWith imgname aviExt = false) :
    detect_and_visualize env infer imgname classes thresh =
      ([], some unsupportedExtMsg) := by
  unfold detect_and_visualize
  rw [h1, h2, h3, h4]
  rfl

/-- Concrete instantiation of `dav_unsupported_ext` at the filename
`notes.txt`. -/
theorem dav_unsupported_ext_witness :
    detect_and_visualize plainEnv (fun _ => []) txtName [] 0 =
      ([], some unsupportedExtMsg) :=
  dav_unsupported_ext plainEnv (fun _ => []) txtName [] 0
    (by decide) (by decide) (by decide) (by decide)

/-- C6 (code bug at detector.py line 207): for a video path the code opens the
capture stream, decodes the first frame and runs single-frame detection on
it, but the render loop then re-reads the video path with the still-image
reader `cv2.imread` instead of using the decoded frame; that read yields no
image — `cv2.imread` decodes nothing for a video file — so the in-place
channel swap raises and nothing is ever rendered, least of all the decoded
frame. The trace shows detection on frame 7 followed by the `NoneType`
failure, with no render event. -/
theorem dav_video_renders_reread_not_frame :
    videoEnv.capReadFirst videoName = some 7 ∧
    detect_and_visualize videoEnv videoInfer videoName [] 0 =
      ([DavEvent.detectOn 7], some noneTypeMsg) := by
  constructor
  · rfl
  · rfl
